import Mathlib

/-!
Verification of the gastown startup bootstrap engine
(internal/runtime/runtime.go, internal/cmd/witness_inbox.go and the
session lifecycle), embedded shallowly: Go structs become Lean
structures, nil pointers become Option, time.Duration becomes Int
nanoseconds, and the stateful executors become functions returning an
explicit call trace together with an optional error.
-/

namespace Gastown

/-- RuntimeHooksConfig: the hooks section of a runtime descriptor
(config.RuntimeHooksConfig).  Only the fields the bootstrap engine
reads are embedded. -/
structure RuntimeHooksConfig where
  provider : String
  informational : Bool
  deriving Repr, DecidableEq

/-- RuntimeTmuxConfig: the tmux section of a runtime descriptor
(config.RuntimeTmuxConfig). -/
structure RuntimeTmuxConfig where
  readyDelayMs : Int
  deriving Repr, DecidableEq

/-- RuntimeConfig: the runtime descriptor (config.RuntimeConfig).
Pointer-valued sections become Option. -/
structure RuntimeConfig where
  promptMode : String
  hooks : Option RuntimeHooksConfig
  tmux : Option RuntimeTmuxConfig
  deriving Repr, DecidableEq

/-- Modelled from the spec: config.DefaultRuntimeConfig is not under
src/; per section 4.1 a missing descriptor is replaced by a default
descriptor equivalent to a fully hook-and-prompt-capable backend (the
runtime tests state nil config defaults to the claude provider with
executable hooks and prompt mode "arg"). -/
def DefaultRuntimeConfig : RuntimeConfig :=
  { promptMode := "arg"
    hooks := some { provider := "claude", informational := false }
    tmux := none }

/-- startupCapabilities (runtime.go): the two-valued capability pair. -/
structure startupCapabilities where
  hasHooks : Bool
  hasPrompt : Bool
  deriving Repr, DecidableEq

/-- resolveStartupCapabilities (runtime.go lines 116-124): nil configs
fall back to the default descriptor; hooks must exist, have a provider
that is neither empty nor "none", and not be informational. -/
def resolveStartupCapabilities (rc0 : Option RuntimeConfig) : startupCapabilities :=
  let rc := rc0.getD DefaultRuntimeConfig
  { hasHooks :=
      match rc.hooks with
      | none => false
      | some h => h.provider != "" && h.provider != "none" && !h.informational
    hasPrompt := rc.promptMode != "none" }

/-- DefaultPrimeWaitMs (runtime.go): wait in milliseconds for non-hook
agents to run gt prime before work instructions are sent. -/
def DefaultPrimeWaitMs : Int := 2000

/-- StartupFallbackInfo (runtime.go lines 188-204). -/
structure StartupFallbackInfo where
  includePrimeInBeacon : Bool := false
  sendBeaconNudge : Bool := false
  sendStartupNudge : Bool := false
  startupNudgeDelayMs : Int := 0
  deriving Repr, DecidableEq

/-- GetStartupFallbackInfo (runtime.go lines 368-393), translated
branch for branch from the Go source. -/
def GetStartupFallbackInfo (rc : Option RuntimeConfig) : StartupFallbackInfo :=
  let capabilities := resolveStartupCapabilities rc
  if !capabilities.hasHooks then
    { includePrimeInBeacon := true
      sendStartupNudge := true
      startupNudgeDelayMs := DefaultPrimeWaitMs
      sendBeaconNudge := !capabilities.hasPrompt }
  else if !capabilities.hasPrompt then
    { sendBeaconNudge := true
      sendStartupNudge := true
      startupNudgeDelayMs := 0 }
  else
    {}

/-- The fallback decision matrix exactly as the specification states it
(section 4.2, four rows).  This definition follows the spec words, to be
compared against GetStartupFallbackInfo from the source. -/
def specFallbackMatrix (c : startupCapabilities) : StartupFallbackInfo :=
  match c.hasHooks, c.hasPrompt with
  | true, true => { includePrimeInBeacon := false, sendBeaconNudge := false
                    sendStartupNudge := false, startupNudgeDelayMs := 0 }
  | true, false => { includePrimeInBeacon := false, sendBeaconNudge := true
                     sendStartupNudge := true, startupNudgeDelayMs := 0 }
  | false, true => { includePrimeInBeacon := true, sendBeaconNudge := false
                     sendStartupNudge := true, startupNudgeDelayMs := 2000 }
  | false, false => { includePrimeInBeacon := true, sendBeaconNudge := true
                      sendStartupNudge := true, startupNudgeDelayMs := 2000 }

end Gastown

namespace Gastown

/-- C1: for every runtime descriptor the fallback decision applied to
the resolved capability pair yields exactly the four-row matrix of the
specification: hooks+prompt gives (false,false,false,0); hooks only
gives (false,true,true,0); prompt only gives (true,false,true,2000);
neither gives (true,true,true,2000) — in particular the 2000 ms delay
appears exactly when hooks are absent. -/
theorem fallback_decision_matches_spec_matrix (rc : Option RuntimeConfig) :
    GetStartupFallbackInfo rc = specFallbackMatrix (resolveStartupCapabilities rc) := by
  unfold GetStartupFallbackInfo specFallbackMatrix
  rcases h : resolveStartupCapabilities rc with ⟨hooks, prompt⟩
  cases hooks <;> cases prompt <;> simp [DefaultPrimeWaitMs]

/-- C9: capability resolution is total; hasHooks holds iff the hooks
section exists with a provider that is non-empty, not "none" and not
informational; hasPrompt holds iff promptMode is not "none"; a missing
descriptor is replaced by the default descriptor and resolves to
(hasHooks, hasPrompt) = (true, true). -/
theorem capability_resolution_total (cfg : RuntimeConfig) :
    ((resolveStartupCapabilities (some cfg)).hasHooks = true ↔
      ∃ h, cfg.hooks = some h ∧ h.provider ≠ "" ∧ h.provider ≠ "none" ∧
        h.informational = false) ∧
    ((resolveStartupCapabilities (some cfg)).hasPrompt = true ↔
      cfg.promptMode ≠ "none") ∧
    resolveStartupCapabilities none =
      resolveStartupCapabilities (some DefaultRuntimeConfig) ∧
    resolveStartupCapabilities none = { hasHooks := true, hasPrompt := true } := by
  refine ⟨?_, ?_, ?_, ?_⟩
  · unfold resolveStartupCapabilities
    rcases cfg with ⟨pm, hk, tm⟩
    cases hk with
    | none => simp
    | some h =>
        rcases h with ⟨prov, info⟩
        simp only [Option.getD_some]
        constructor
        · intro hh
          refine ⟨⟨prov, info⟩, rfl, ?_, ?_, ?_⟩ <;>
            simp_all [Bool.and_eq_true, bne_iff_ne]
        · rintro ⟨h2, heq, hne1, hne2, hinfo⟩
          cases heq
          simp_all [Bool.and_eq_true, bne_iff_ne]
  · unfold resolveStartupCapabilities
    simp [bne_iff_ne]
  · rfl
  · rfl

end Gastown

namespace Gastown

/-- trimSpace models strings.TrimSpace: drop leading and trailing
whitespace (structural on the character list so proofs can evaluate
it). -/
def trimSpace (s : String) : String :=
  String.mk (((s.data.dropWhile Char.isWhitespace).reverse.dropWhile
    Char.isWhitespace).reverse)

/-- toLowerGo models strings.ToLower: lowercase every character. -/
def toLowerGo (s : String) : String :=
  String.mk (s.data.map Char.toLower)

/-- RoleStartupPlan (config package): per-role command shape. -/
structure RoleStartupPlan where
  prePrimeCommand : String := ""
  primeCommand : String := ""
  promptlessCommand : String := ""
  autoMailInject : Bool := false
  deriving Repr, DecidableEq

/-- Modelled from the spec: config.StartupFallbackPlanForRole is not
under src/; per section 4.3 the prePrimeCommand is non-empty only for
the deacon role (a heartbeat invocation), "mail check --inject" is
appended iff the role is autonomous (polecat, witness, refinery,
deacon), and the boot role is a hard special case whose fallback
command is always exactly prime followed by boot triage with no mail
injection, overriding the autonomous rule and the generic composition
(section 9 adopts this unconditional behavior). -/
def StartupFallbackPlanForRole (role : String) : RoleStartupPlan :=
  if role = "boot" then
    { primeCommand := "gt prime && gt boot triage" }
  else if role = "deacon" then
    { prePrimeCommand := "gt deacon heartbeat \"boot patrol\"", autoMailInject := true }
  else if role = "polecat" || role = "witness" || role = "refinery" then
    { autoMailInject := true }
  else
    {}

/-- StartupFallbackCommands (runtime.go lines 127-159): composes the
role plan into a single " && "-joined command, empty when executable
hooks are present. -/
def StartupFallbackCommands (role : String) (rc : Option RuntimeConfig) : List String :=
  let capabilities := resolveStartupCapabilities rc
  if capabilities.hasHooks then []
  else
    let rolePlan := StartupFallbackPlanForRole role
    let parts0 : List String :=
      if rolePlan.prePrimeCommand != "" then [rolePlan.prePrimeCommand] else []
    let primeCommand :=
      if trimSpace rolePlan.primeCommand = "" then "gt prime" else trimSpace rolePlan.primeCommand
    let parts1 := parts0 ++ [primeCommand]
    let parts2 :=
      if rolePlan.autoMailInject then parts1 ++ ["gt mail check --inject"] else parts1
    let parts3 :=
      if !capabilities.hasPrompt && rolePlan.promptlessCommand != "" then
        parts2 ++ [rolePlan.promptlessCommand]
      else parts2
    [String.intercalate " && " parts3]

/-- isAutonomousRole (src/unnamed/part_001 lines 306-313): roles that
get automatic mail injection in the legacy runtime variant.  Note the
legacy list also contains "boot". -/
def isAutonomousRole (role : String) : Bool :=
  role = "polecat" || role = "witness" || role = "refinery" ||
    role = "deacon" || role = "boot"

/-- legacyStartupFallbackCommands (src/unnamed/part_001 lines 256-286):
the parallel in-repo variant of StartupFallbackCommands, with the boot
special case written out inline and the role lowercased first. -/
def legacyStartupFallbackCommands (role0 : String) (rc : Option RuntimeConfig) : List String :=
  if (resolveStartupCapabilities rc).hasHooks then []
  else
    let role := toLowerGo role0
    if role = "boot" then ["gt prime && gt boot triage"]
    else
      let command0 := "gt prime"
      let command1 :=
        if role = "deacon" then
          "gt deacon heartbeat \"boot patrol\" && " ++ command0
        else command0
      let command2 :=
        if isAutonomousRole role then command1 ++ " && gt mail check --inject"
        else command1
      [command2]

/-- substrOf a b holds when a occurs as a contiguous substring of b,
the notion used by strings.Contains in the repository tests. -/
def substrOf (a b : String) : Prop := a.data <:+: b.data

instance (a b : String) : Decidable (substrOf a b) :=
  inferInstanceAs (Decidable (a.data <:+: b.data))

end Gastown

namespace Gastown

/-- C4: for every descriptor without executable hooks, the composed
fallback command for role "boot" is exactly "gt prime && gt boot
triage" (independently of prompt capability and of the autonomous-role
rule) and never contains "mail check --inject"; the in-repo legacy
variant agrees. -/
theorem boot_fallback_command (rc : Option RuntimeConfig)
    (hnh : (resolveStartupCapabilities rc).hasHooks = false) :
    StartupFallbackCommands "boot" rc = ["gt prime && gt boot triage"] ∧
    legacyStartupFallbackCommands "boot" rc = ["gt prime && gt boot triage"] ∧
    ¬ substrOf "mail check --inject" "gt prime && gt boot triage" := by
  refine ⟨?_, ?_, by decide⟩
  · unfold StartupFallbackCommands StartupFallbackPlanForRole
    simp [hnh, String.intercalate]
    rfl
  · unfold legacyStartupFallbackCommands
    have hb : toLowerGo "boot" = "boot" := by decide
    simp [hnh, hb]

/-- Closed witness for the boot fallback command theorem at a concrete
hook-less descriptor. -/
theorem boot_fallback_command_witness :
    StartupFallbackCommands "boot"
        (some { promptMode := "arg", hooks := some { provider := "none", informational := false },
                tmux := none }) = ["gt prime && gt boot triage"] :=
  (boot_fallback_command _ (by decide)).1

end Gastown

namespace Gastown

/-- A concrete prompt-less descriptor without executable hooks (the
codex-style runtime used across the repository tests). -/
def codexLikeConfig : Option RuntimeConfig :=
  some { promptMode := "none"
         hooks := some { provider := "none", informational := false }
         tmux := some { readyDelayMs := 3000 } }

/-- A concrete hook-and-prompt-capable descriptor (the claude-style
runtime used across the repository tests). -/
def claudeLikeConfig : Option RuntimeConfig :=
  some { promptMode := "arg"
         hooks := some { provider := "claude", informational := false }
         tmux := none }

/-- C5: without executable hooks the composed fallback command contains
"mail check --inject" exactly for the autonomous roles polecat,
witness, refinery and deacon, and not for mayor or crew; with
executable hooks the fallback command list is empty for every role. -/
theorem autonomous_role_mail_injection (rc : Option RuntimeConfig) (role : String) :
    ((resolveStartupCapabilities rc).hasHooks = false →
      (role ∈ ["polecat", "witness", "refinery", "deacon"] →
        ∃ cmd, StartupFallbackCommands role rc = [cmd] ∧
          substrOf "mail check --inject" cmd) ∧
      (role ∈ ["mayor", "crew"] →
        ∃ cmd, StartupFallbackCommands role rc = [cmd] ∧
          ¬ substrOf "mail check --inject" cmd)) ∧
    ((resolveStartupCapabilities rc).hasHooks = true →
      StartupFallbackCommands role rc = []) := by
  constructor
  · intro hnh
    constructor
    · intro hmem
      simp only [List.mem_cons, List.not_mem_nil, or_false] at hmem
      rcases hmem with rfl | rfl | rfl | rfl
      · refine ⟨"gt prime && gt mail check --inject", ?_, by decide⟩
        unfold StartupFallbackCommands StartupFallbackPlanForRole
        simp [hnh, String.intercalate]
        rfl
      · refine ⟨"gt prime && gt mail check --inject", ?_, by decide⟩
        unfold StartupFallbackCommands StartupFallbackPlanForRole
        simp [hnh, String.intercalate]
        rfl
      · refine ⟨"gt prime && gt mail check --inject", ?_, by decide⟩
        unfold StartupFallbackCommands StartupFallbackPlanForRole
        simp [hnh, String.intercalate]
        rfl
      · refine ⟨"gt deacon heartbeat \"boot patrol\" && gt prime && gt mail check --inject",
          ?_, by decide⟩
        unfold StartupFallbackCommands StartupFallbackPlanForRole
        simp [hnh, String.intercalate]
        rfl
    · intro hmem
      simp only [List.mem_cons, List.not_mem_nil, or_false] at hmem
      rcases hmem with rfl | rfl
      · refine ⟨"gt prime", ?_, by decide⟩
        unfold StartupFallbackCommands StartupFallbackPlanForRole
        simp [hnh, String.intercalate]
        rfl
      · refine ⟨"gt prime", ?_, by decide⟩
        unfold StartupFallbackCommands StartupFallbackPlanForRole
        simp [hnh, String.intercalate]
        rfl
  · intro hh
    unfold StartupFallbackCommands
    simp [hh]

/-- Closed witness for the autonomous role mail injection theorem: a
prompt-less non-hook descriptor gives polecat a mail-injecting command
and a hook descriptor gives crew no fallback commands at all. -/
theorem autonomous_role_mail_injection_witness :
    (∃ cmd, StartupFallbackCommands "polecat" codexLikeConfig = [cmd] ∧
      substrOf "mail check --inject" cmd) ∧
    StartupFallbackCommands "crew" claudeLikeConfig = [] :=
  ⟨((autonomous_role_mail_injection codexLikeConfig "polecat").1 (by decide)).1 (by simp),
   (autonomous_role_mail_injection claudeLikeConfig "crew").2 (by decide)⟩

end Gastown

namespace Gastown

/-- millisecondNs: time.Millisecond in nanoseconds, since time.Duration
is an integer nanosecond count. -/
def millisecondNs : Int := 1000000

/-- StartupBootstrapSpec (runtime.go lines 210-228). -/
structure StartupBootstrapSpec where
  role : String := ""
  beaconMessage : String := ""
  startupNudgeMessage : String := ""
  includeFallbackCommands : Bool := false
  readyDelayApplied : Bool := false
  deriving Repr, DecidableEq

/-- StartupBootstrapStepWait (runtime.go): the step kind string for
waits. -/
def StartupBootstrapStepWait : String := "wait"

/-- StartupBootstrapStepNudge (runtime.go): the step kind string for
nudges. -/
def StartupBootstrapStepNudge : String := "nudge"

/-- StartupBootstrapStep (runtime.go lines 242-250): kind plus the
field relevant to that kind (delay in nanoseconds, command text). -/
structure StartupBootstrapStep where
  kind : String
  delay : Int := 0
  command : String := ""
  deriving Repr, DecidableEq

/-- StartupBootstrapContract (runtime.go lines 255-258). -/
structure StartupBootstrapContract where
  info : StartupFallbackInfo
  steps : List StartupBootstrapStep
  deriving Repr, DecidableEq

/-- readyDelayDuration (runtime.go lines 357-365). -/
def readyDelayDuration (rc0 : Option RuntimeConfig) : Int :=
  let rc := rc0.getD DefaultRuntimeConfig
  match rc.tmux with
  | none => 0
  | some t => if t.readyDelayMs ≤ 0 then 0 else t.readyDelayMs * millisecondNs

/-- BuildStartupBootstrapContract (runtime.go lines 266-323): the
append-only construction of the ordered step list, translated
branch for branch; the Go appends become list concatenations. -/
def BuildStartupBootstrapContract (spec : StartupBootstrapSpec)
    (rc : Option RuntimeConfig) : StartupBootstrapContract :=
  let info := GetStartupFallbackInfo rc
  let nudgeSteps : List StartupBootstrapStep :=
    if info.sendBeaconNudge && info.sendStartupNudge &&
        info.startupNudgeDelayMs = 0 && spec.beaconMessage != "" &&
        spec.startupNudgeMessage != "" then
      [{ kind := StartupBootstrapStepNudge
         command := spec.beaconMessage ++ "\n\n" ++ spec.startupNudgeMessage }]
    else
      (if info.sendBeaconNudge && spec.beaconMessage != "" then
        [{ kind := StartupBootstrapStepNudge, command := spec.beaconMessage }]
       else []) ++
      (if info.sendStartupNudge && spec.startupNudgeMessage != "" then
        (if info.startupNudgeDelayMs > 0 then
          [{ kind := StartupBootstrapStepWait
             delay := info.startupNudgeDelayMs * millisecondNs }]
         else []) ++
        [{ kind := StartupBootstrapStepNudge, command := spec.startupNudgeMessage }]
       else [])
  let fallbackSteps : List StartupBootstrapStep :=
    if spec.includeFallbackCommands then
      let commands := StartupFallbackCommands spec.role rc
      if commands.length > 0 then
        (if !spec.readyDelayApplied then
          (if readyDelayDuration rc > 0 then
            [{ kind := StartupBootstrapStepWait, delay := readyDelayDuration rc }]
           else [])
         else []) ++
        commands.map (fun command =>
          { kind := StartupBootstrapStepNudge, command := command })
      else []
    else []
  { info := info, steps := nudgeSteps ++ fallbackSteps }

end Gastown

namespace Gastown

/-- C2: for a descriptor with hooks but no prompt and a spec with
non-empty beacon and startup texts and no fallback commands requested,
the built contract is exactly one Nudge step whose command is the
beacon text, two newlines, then the startup text. -/
theorem combined_nudge_for_hooks_without_prompt (rc : Option RuntimeConfig)
    (spec : StartupBootstrapSpec)
    (hcap : resolveStartupCapabilities rc = { hasHooks := true, hasPrompt := false })
    (hb : spec.beaconMessage ≠ "") (hs : spec.startupNudgeMessage ≠ "")
    (hf : spec.includeFallbackCommands = false) :
    (BuildStartupBootstrapContract spec rc).steps =
      [{ kind := StartupBootstrapStepNudge, delay := 0
         command := spec.beaconMessage ++ "\n\n" ++ spec.startupNudgeMessage }] := by
  unfold BuildStartupBootstrapContract GetStartupFallbackInfo
  simp [hcap, hf, hb, hs]

/-- Closed witness for the combined nudge theorem at a concrete
hooks-without-prompt descriptor. -/
theorem combined_nudge_for_hooks_without_prompt_witness :
    (BuildStartupBootstrapContract
        { beaconMessage := "beacon", startupNudgeMessage := "startup" }
        (some { promptMode := "none"
                hooks := some { provider := "claude", informational := false }
                tmux := none })).steps =
      [{ kind := StartupBootstrapStepNudge, delay := 0
         command := "beacon" ++ "\n\n" ++ "startup" }] :=
  combined_nudge_for_hooks_without_prompt _ _ (by decide) (by decide) (by decide) rfl

/-- C3: for a descriptor with neither hooks nor prompt and a spec with
non-empty beacon and startup texts and no fallback commands requested,
the built contract is Nudge(beacon), Wait(2000 ms), Nudge(startup) in
that order. -/
theorem delayed_nudges_without_hooks_and_prompt (rc : Option RuntimeConfig)
    (spec : StartupBootstrapSpec)
    (hcap : resolveStartupCapabilities rc = { hasHooks := false, hasPrompt := false })
    (hb : spec.beaconMessage ≠ "") (hs : spec.startupNudgeMessage ≠ "")
    (hf : spec.includeFallbackCommands = false) :
    (BuildStartupBootstrapContract spec rc).steps =
      [{ kind := StartupBootstrapStepNudge, delay := 0, command := spec.beaconMessage },
       { kind := StartupBootstrapStepWait, delay := 2000 * millisecondNs, command := "" },
       { kind := StartupBootstrapStepNudge, delay := 0, command := spec.startupNudgeMessage }] := by
  unfold BuildStartupBootstrapContract GetStartupFallbackInfo
  simp [hcap, hf, hb, hs, DefaultPrimeWaitMs]

/-- Closed witness for the delayed nudge order theorem at a concrete
prompt-less non-hook descriptor. -/
theorem delayed_nudges_without_hooks_and_prompt_witness :
    (BuildStartupBootstrapContract
        { beaconMessage := "beacon", startupNudgeMessage := "startup" }
        (some { promptMode := "none"
                hooks := some { provider := "none", informational := false }
                tmux := none })).steps =
      [{ kind := StartupBootstrapStepNudge, delay := 0, command := "beacon" },
       { kind := StartupBootstrapStepWait, delay := 2000 * millisecondNs, command := "" },
       { kind := StartupBootstrapStepNudge, delay := 0, command := "startup" }] :=
  delayed_nudges_without_hooks_and_prompt _ _ (by decide) (by decide) (by decide) rfl

end Gastown

namespace Gastown

/-- SleepFn distinguishes the default sleeper (time.Sleep) from a
caller-injected sleep function, the only observable difference the
executor makes between them. -/
inductive SleepFn
  | default
  | injected
  deriving Repr, DecidableEq

/-- resolveSleepFn (runtime.go lines 334-336): a nil sleep function is
replaced by time.Sleep. -/
def resolveSleepFn : Option SleepFn → SleepFn
  | none => SleepFn.default
  | some fn => fn

/-- ExecCall records one external call made by the in-process executor:
a call to the sleep function or a NudgeSession call. -/
inductive ExecCall
  | sleep (fn : SleepFn) (delay : Int)
  | nudge (sessionID message : String)
  deriving Repr, DecidableEq

/-- execBootstrapSteps is the loop body of
executeStartupBootstrapContract (runtime.go lines 338-352): steps run
in order, a wait sleeps only for positive delays, a nudge with empty
command is skipped, and a failing NudgeSession call ends execution with
that error.  The nudger is a function from session and message to an
optional error; the returned list is the sequence of external calls
made. -/
def execBootstrapSteps (nudger : String → String → Option String)
    (sessionID : String) (fn : SleepFn) :
    List StartupBootstrapStep → List ExecCall × Option String
  | [] => ([], none)
  | step :: rest =>
    if step.kind = StartupBootstrapStepWait then
      if step.delay > 0 then
        let tail := execBootstrapSteps nudger sessionID fn rest
        (ExecCall.sleep fn step.delay :: tail.1, tail.2)
      else execBootstrapSteps nudger sessionID fn rest
    else if step.kind = StartupBootstrapStepNudge then
      if step.command = "" then execBootstrapSteps nudger sessionID fn rest
      else
        match nudger sessionID step.command with
        | some e => ([ExecCall.nudge sessionID step.command], some e)
        | none =>
          let tail := execBootstrapSteps nudger sessionID fn rest
          (ExecCall.nudge sessionID step.command :: tail.1, tail.2)
    else execBootstrapSteps nudger sessionID fn rest

/-- executeStartupBootstrapContract (runtime.go lines 330-355): a nil
contract succeeds immediately, a nil sleep function falls back to
time.Sleep, otherwise the steps are interpreted in order. -/
def executeStartupBootstrapContract (nudger : String → String → Option String)
    (sessionID : String) (contract : Option StartupBootstrapContract)
    (sleepFn : Option SleepFn) : List ExecCall × Option String :=
  match contract with
  | none => ([], none)
  | some c => execBootstrapSteps nudger sessionID (resolveSleepFn sleepFn) c.steps

end Gastown

namespace Gastown

/-- C6: the in-process executor processes steps strictly in order; once
an error-free leading segment is executed the remaining steps are
executed right after it, a failing NudgeSession call ends execution
immediately with that error and no later step runs, and the concrete
contract Wait 3ms, Nudge "one", Wait 1ms, Nudge "two" with an
error-free nudger produces exactly the calls sleep(3ms), nudge("one"),
sleep(1ms), nudge("two"). -/
theorem executor_sequences_steps_and_aborts_on_error
    (nudger : String → String → Option String) (sessionID : String) (fn : SleepFn)
    (pre post rest : List StartupBootstrapStep)
    (command e : String)
    (hok : (execBootstrapSteps nudger sessionID fn pre).2 = none)
    (hcmd : command ≠ "") (herr : nudger sessionID command = some e) :
    execBootstrapSteps nudger sessionID fn (pre ++ post) =
      ((execBootstrapSteps nudger sessionID fn pre).1 ++
        (execBootstrapSteps nudger sessionID fn post).1,
       (execBootstrapSteps nudger sessionID fn post).2) ∧
    execBootstrapSteps nudger sessionID fn
        ({ kind := StartupBootstrapStepNudge, command := command } :: rest) =
      ([ExecCall.nudge sessionID command], some e) ∧
    executeStartupBootstrapContract (fun _ _ => none) "session"
        (some { info := {}
                steps := [{ kind := StartupBootstrapStepWait, delay := 3 * millisecondNs },
                          { kind := StartupBootstrapStepNudge, command := "one" },
                          { kind := StartupBootstrapStepWait, delay := 1 * millisecondNs },
                          { kind := StartupBootstrapStepNudge, command := "two" }] })
        (some SleepFn.injected) =
      ([ExecCall.sleep SleepFn.injected (3 * millisecondNs),
        ExecCall.nudge "session" "one",
        ExecCall.sleep SleepFn.injected (1 * millisecondNs),
        ExecCall.nudge "session" "two"], none) := by
  refine ⟨?_, ?_, by decide⟩
  · induction pre with
    | nil => simp [execBootstrapSteps]
    | cons step rest2 ih =>
        rw [List.cons_append]
        simp only [execBootstrapSteps] at hok ⊢
        split_ifs at hok ⊢ with hw hd hn hc
        · simp only at hok
          have := ih hok
          simp [this]
        · exact ih hok
        · exact ih hok
        · cases hres : nudger sessionID step.command with
          | some err => simp [hres] at hok
          | none =>
              rw [hres] at hok
              simp only at hok
              have := ih hok
              simp [this]
        · exact ih hok
  · rw [execBootstrapSteps]
    simp [StartupBootstrapStepWait, StartupBootstrapStepNudge, hcmd, herr]

/-- Closed witness for the executor sequencing theorem: applying it
with a one-step error-free leading segment and a failing nudge on the
constant-error nudger. -/
theorem executor_sequences_steps_and_aborts_on_error_witness :
    execBootstrapSteps (fun _ _ => some "boom") "s" SleepFn.injected
        ([{ kind := StartupBootstrapStepWait, delay := 5 }] ++
          [{ kind := StartupBootstrapStepNudge, command := "go" }]) =
      ([ExecCall.sleep SleepFn.injected 5, ExecCall.nudge "s" "go"], some "boom") := by
  have h := executor_sequences_steps_and_aborts_on_error
    (fun _ _ => some "boom") "s" SleepFn.injected
    [{ kind := StartupBootstrapStepWait, delay := 5 }]
    [{ kind := StartupBootstrapStepNudge, command := "go" }]
    [] "go" "boom" (by decide) (by decide) rfl
  rw [h.1]
  decide

end Gastown

namespace Gastown

/-- C10: the in-process executor is total and effect-free at its edges:
a nil contract returns no error and makes no call, a nil sleep function
is replaced by the default (time.Sleep) sleeper and execution proceeds,
a wait with non-positive delay makes no sleep call, and a nudge with an
empty command is skipped without a NudgeSession call. -/
theorem executor_total_on_edge_inputs
    (nudger : String → String → Option String) (sessionID : String)
    (fn : SleepFn) (sleepFn : Option SleepFn) (d : Int)
    (rest : List StartupBootstrapStep) (c : StartupBootstrapContract) :
    executeStartupBootstrapContract nudger sessionID none sleepFn = ([], none) ∧
    executeStartupBootstrapContract nudger sessionID (some c) none =
      execBootstrapSteps nudger sessionID SleepFn.default c.steps ∧
    (0 < d → execBootstrapSteps nudger sessionID SleepFn.default
        ({ kind := StartupBootstrapStepWait, delay := d } :: rest) =
      (ExecCall.sleep SleepFn.default d ::
        (execBootstrapSteps nudger sessionID SleepFn.default rest).1,
       (execBootstrapSteps nudger sessionID SleepFn.default rest).2)) ∧
    (d ≤ 0 → execBootstrapSteps nudger sessionID fn
        ({ kind := StartupBootstrapStepWait, delay := d } :: rest) =
      execBootstrapSteps nudger sessionID fn rest) ∧
    execBootstrapSteps nudger sessionID fn
        ({ kind := StartupBootstrapStepNudge, command := "" } :: rest) =
      execBootstrapSteps nudger sessionID fn rest := by
  refine ⟨rfl, rfl, ?_, ?_, ?_⟩
  · intro hd
    rw [execBootstrapSteps]
    simp [hd]
  · intro hd
    rw [execBootstrapSteps]
    simp [not_lt.mpr hd]
  · rw [execBootstrapSteps]
    simp [StartupBootstrapStepWait, StartupBootstrapStepNudge]

/-- Closed witness for the executor edge-input theorem: a positive wait
with the default sleeper sleeps, and a non-positive wait is skipped. -/
theorem executor_total_on_edge_inputs_witness :
    execBootstrapSteps (fun _ _ => none) "s" SleepFn.default
        [{ kind := StartupBootstrapStepWait, delay := 7 }] =
      (ExecCall.sleep SleepFn.default 7 ::
        (execBootstrapSteps (fun _ _ => none) "s" SleepFn.default []).1,
       (execBootstrapSteps (fun _ _ => none) "s" SleepFn.default []).2) ∧
    execBootstrapSteps (fun _ _ => none) "s" SleepFn.injected
        [{ kind := StartupBootstrapStepWait, delay := 0 }] =
      execBootstrapSteps (fun _ _ => none) "s" SleepFn.injected [] :=
  ⟨(executor_total_on_edge_inputs (fun _ _ => none) "s" SleepFn.default none 7 []
      { info := {}, steps := [] }).2.2.1 (by decide),
   (executor_total_on_edge_inputs (fun _ _ => none) "s" SleepFn.injected none 0 []
      { info := {}, steps := [] }).2.2.2.1 (by decide)⟩

end Gastown

namespace Gastown

/-- shellQuoteChar: single-quote escaping for one character, closing
the quote, emitting a backslash-escaped quote and reopening. -/
def shellQuoteChar (c : Char) : List Char :=
  if c = '\'' then ['\'', '\\', '\'', '\''] else [c]

/-- Modelled from the spec: config.ShellQuote is not under src/; per
section 6 literal command text and session identifiers must be
shell-quoted, modelled as POSIX single-quoting with embedded quotes
escaped. -/
def ShellQuote (s : String) : String :=
  "'" ++ String.mk (s.data.map shellQuoteChar).flatten ++ "'"

/-- formatSeconds3 renders a nanosecond duration the way the Go code
renders delay.Seconds() with the %.3f verb: seconds with exactly three
decimal places.  The callers only pass millisecond-granularity
durations, for which rounding to the nearest thousandth is exact. -/
def formatSeconds3 (ns : Int) : String :=
  let ms := ((ns + 500000) / 1000000).toNat
  let frac := ms % 1000
  let pad := if frac < 10 then "00" else if frac < 100 then "0" else ""
  toString (ms / 1000) ++ "." ++ pad ++ toString frac

/-- startupBootstrapDelay (witness_inbox.go lines 321-326). -/
def startupBootstrapDelay (rc : Option RuntimeConfig) : Int :=
  match rc with
  | none => 0
  | some cfg =>
    match cfg.tmux with
    | none => 0
    | some t => if t.readyDelayMs ≤ 0 then 0 else t.readyDelayMs * millisecondNs

/-- buildDeferredNudgeScript (witness_inbox.go lines 328-341): a sleep
step only for positive delays, then literal send-keys and Enter for the
shell-quoted session and command, joined with " && ". -/
def buildDeferredNudgeScript (sessionID command : String) (delay : Int) : String :=
  let sleepSteps : List String :=
    if delay > 0 then ["sleep " ++ formatSeconds3 delay] else []
  let quotedSession := ShellQuote sessionID
  let quotedCommand := ShellQuote command
  String.intercalate " && "
    (sleepSteps ++
      ["tmux send-keys -t " ++ quotedSession ++ " -l " ++ quotedCommand,
       "tmux send-keys -t " ++ quotedSession ++ " Enter"])

/-- scheduleRespawnLoop is the loop body of
scheduleRespawnStartupBootstrap (witness_inbox.go lines 310-317): each
command is lowered to a script and submitted to the background runner;
a submission failure returns a wrapped error at once, and the delay is
zeroed after the first message.  The returned list records the
submitted scripts. -/
def scheduleRespawnLoop (submit : String → Option String) (sessionID : String) :
    Int → List String → List String × Option String
  | _, [] => ([], none)
  | delay, command :: rest =>
    let script := buildDeferredNudgeScript sessionID command delay
    match submit script with
    | some e =>
      ([script], some ("scheduling startup bootstrap for " ++ sessionID ++ ": " ++ e))
    | none =>
      let tail := scheduleRespawnLoop submit sessionID 0 rest
      (script :: tail.1, tail.2)

/-- scheduleRespawnStartupBootstrap (witness_inbox.go lines 303-319). -/
def scheduleRespawnStartupBootstrap (submit : String → Option String)
    (sessionID role : String) (rc : Option RuntimeConfig) :
    List String × Option String :=
  let commands := StartupFallbackCommands role rc
  if commands.length = 0 then ([], none)
  else scheduleRespawnLoop submit sessionID (startupBootstrapDelay rc) commands

/-- sendKeysScript is the sleep-free part of the lowered fragment: the
shell-quoted literal send-keys followed by the shell-quoted Enter. -/
def sendKeysScript (sessionID command : String) : String :=
  "tmux send-keys -t " ++ ShellQuote sessionID ++ " -l " ++ ShellQuote command ++
    " && tmux send-keys -t " ++ ShellQuote sessionID ++ " Enter"

end Gastown

namespace Gastown

/-- Helper: with an error-free background runner the schedule loop
submits one lowered script per command, the head with the given delay
and every later command with delay zero, and reports no error. -/
theorem scheduleRespawnLoop_errorFree (submit : String → Option String)
    (sessionID : String) (hsub : ∀ s, submit s = none) :
    ∀ (cmds : List String) (delay : Int),
      scheduleRespawnLoop submit sessionID delay cmds =
        (match cmds with
         | [] => []
         | c :: rest =>
           buildDeferredNudgeScript sessionID c delay ::
             rest.map (fun x => buildDeferredNudgeScript sessionID x 0), none) := by
  intro cmds
  induction cmds with
  | nil => intro delay; rfl
  | cons c rest ih =>
      intro delay
      rw [scheduleRespawnLoop]
      rw [hsub]
      rw [ih 0]
      cases rest with
      | nil => rfl
      | cons r rs => simp

end Gastown

namespace Gastown

/-- C7: each fallback command lowers, in order, to a fragment
"sleep seconds-to-3-decimals && send-literal-keys && send-enter" with
shell-quoted session and command; the sleep appears only when the delay
is positive and only on the first submitted fragment (later fragments
use delay zero), and a submission failure is returned synchronously as
a wrapped error. -/
theorem detached_executor_lowering (submit : String → Option String)
    (sessionID role command e : String) (rc : Option RuntimeConfig)
    (delay : Int) (rest : List String) :
    (0 < delay → buildDeferredNudgeScript sessionID command delay =
      "sleep " ++ formatSeconds3 delay ++ " && " ++ sendKeysScript sessionID command) ∧
    (delay ≤ 0 → buildDeferredNudgeScript sessionID command delay =
      sendKeysScript sessionID command) ∧
    ((∀ s, submit s = none) →
      scheduleRespawnLoop submit sessionID delay (command :: rest) =
        (buildDeferredNudgeScript sessionID command delay ::
          rest.map (fun x => buildDeferredNudgeScript sessionID x 0), none)) ∧
    ((∀ s, submit s = none) →
      scheduleRespawnStartupBootstrap submit sessionID role rc =
        (match StartupFallbackCommands role rc with
         | [] => []
         | c :: more =>
           buildDeferredNudgeScript sessionID c (startupBootstrapDelay rc) ::
             more.map (fun x => buildDeferredNudgeScript sessionID x 0), none)) ∧
    (submit (buildDeferredNudgeScript sessionID command delay) = some e →
      scheduleRespawnLoop submit sessionID delay (command :: rest) =
        ([buildDeferredNudgeScript sessionID command delay],
         some ("scheduling startup bootstrap for " ++ sessionID ++ ": " ++ e))) := by
  refine ⟨?_, ?_, ?_, ?_, ?_⟩
  · intro hd
    apply String.ext
    unfold buildDeferredNudgeScript sendKeysScript
    simp [hd, String.intercalate, String.intercalate.go]
  · intro hd
    apply String.ext
    unfold buildDeferredNudgeScript sendKeysScript
    simp [not_lt.mpr hd, String.intercalate, String.intercalate.go]
  · intro hsub
    rw [scheduleRespawnLoop_errorFree submit sessionID hsub]
  · intro hsub
    unfold scheduleRespawnStartupBootstrap
    cases hc : StartupFallbackCommands role rc with
    | nil => simp [hc]
    | cons c more =>
        simp only [hc, List.length_cons]
        rw [if_neg (by simp)]
        rw [scheduleRespawnLoop_errorFree submit sessionID hsub]
  · intro herr
    rw [scheduleRespawnLoop]
    simp only []
    rw [herr]

/-- Closed witness for the detached executor lowering theorem at the
codex-style descriptor (3000 ms ready delay) and the crew role, with an
error-free background runner. -/
theorem detached_executor_lowering_witness :
    scheduleRespawnStartupBootstrap (fun _ => none) "gt-crew-max" "crew"
        codexLikeConfig =
      (match StartupFallbackCommands "crew" codexLikeConfig with
       | [] => []
       | c :: more =>
         buildDeferredNudgeScript "gt-crew-max" c
             (startupBootstrapDelay codexLikeConfig) ::
           more.map (fun x => buildDeferredNudgeScript "gt-crew-max" x 0), none) :=
  (detached_executor_lowering (fun _ => none) "gt-crew-max" "crew" "gt prime" "err"
      codexLikeConfig 0 []).2.2.2.1 (fun _ => rfl)

end Gastown

namespace Gastown

/-- BeaconConfig (session package): beacon addressing fields. -/
structure BeaconConfig where
  recipient : String := ""
  sender : String := ""
  topic : String := ""
  includePrimeInstruction : Bool := false
  excludeWorkInstructions : Bool := false
  deriving Repr, DecidableEq

/-- SessionConfig (session package): session start parameters. -/
structure SessionConfig where
  sessionID : String := ""
  workDir : String := ""
  role : String := ""
  beacon : BeaconConfig := {}
  instructions : String := ""
  agentOverride : String := ""
  townRoot : String := ""
  runStartupFallback : Bool := false
  startupFallbackRole : String := ""
  readyDelay : Bool := false
  deriving Repr, DecidableEq

/-- Modelled from the spec: the StartSession implementation is not
under src/ (only internal/session/lifecycle_test.go is); per section
4.6 it validates, in order, that sessionID, workDir and role are
non-empty, failing fast with a distinct message naming the missing
field, with the exact messages asserted by the lifecycle tests.  Only
the validation outcome is modelled: the returned value is the error, or
none when validation passes and the session start proceeds. -/
def StartSession (cfg : SessionConfig) : Option String :=
  if cfg.sessionID = "" then some "SessionID is required"
  else if cfg.workDir = "" then some "WorkDir is required"
  else if cfg.role = "" then some "Role is required"
  else none

end Gastown

namespace Gastown

/-- C8: StartSession validates sessionID, then workDir, then role, and
an empty field fails with the message naming exactly that field; the
three messages are pairwise distinct. -/
theorem startSession_validates_in_order (cfg : SessionConfig) :
    (cfg.sessionID = "" → StartSession cfg = some "SessionID is required") ∧
    (cfg.sessionID ≠ "" → cfg.workDir = "" →
      StartSession cfg = some "WorkDir is required") ∧
    (cfg.sessionID ≠ "" → cfg.workDir ≠ "" → cfg.role = "" →
      StartSession cfg = some "Role is required") ∧
    (cfg.sessionID ≠ "" → cfg.workDir ≠ "" → cfg.role ≠ "" →
      StartSession cfg = none) ∧
    ("SessionID is required" ≠ "WorkDir is required" ∧
     "SessionID is required" ≠ "Role is required" ∧
     "WorkDir is required" ≠ "Role is required") := by
  refine ⟨?_, ?_, ?_, ?_, by decide⟩
  · intro h1
    simp [StartSession, h1]
  · intro h1 h2
    simp [StartSession, h1, h2]
  · intro h1 h2 h3
    simp [StartSession, h1, h2, h3]
  · intro h1 h2 h3
    simp [StartSession, h1, h2, h3]

/-- Closed witness for the StartSession validation theorem at the three
configurations used by the lifecycle tests. -/
theorem startSession_validates_in_order_witness :
    StartSession { workDir := "/tmp", role := "polecat" } =
      some "SessionID is required" ∧
    StartSession { sessionID := "gt-test", role := "polecat" } =
      some "WorkDir is required" ∧
    StartSession { sessionID := "gt-test", workDir := "/tmp" } =
      some "Role is required" :=
  ⟨(startSession_validates_in_order { workDir := "/tmp", role := "polecat" }).1 rfl,
   ((startSession_validates_in_order { sessionID := "gt-test", role := "polecat" }).2.1
     (by decide) rfl),
   ((startSession_validates_in_order { sessionID := "gt-test", workDir := "/tmp" }).2.2.1
     (by decide) (by decide) rfl)⟩

end Gastown
